import Mathlib

/-!
Verification of the todo CRUD core: data model (todos/models.py), the five
operations plus bulk delete (todos/views.py), and the form validation layer.
Timestamps are modelled as natural numbers; the current time is passed to each
state-changing operation explicitly, mirroring the automatic timestamp columns
(auto_now_add for created_at, auto_now for updated_at).
-/

/-- A calendar date, as stored in the DateField due_date column. -/
structure Date where
  year : Nat
  month : Nat
  day : Nat
deriving DecidableEq, Repr

/-- Leap-year rule of the Gregorian calendar, as used by the date parser. -/
def isLeapYear (y : Nat) : Bool :=
  (y % 4 == 0 && y % 100 != 0) || (y % 400 == 0)

/-- Number of days of month m in year y. -/
def daysInMonth (y m : Nat) : Nat :=
  if m == 2 then (if isLeapYear y then 29 else 28)
  else if m == 4 || m == 6 || m == 9 || m == 11 then 30
  else 31

/-- Whether y-m-d denotes a real calendar date. -/
def validDate (y m d : Nat) : Bool :=
  1 ≤ m && m ≤ 12 && 1 ≤ d && d ≤ daysInMonth y m

/-- Build a Date after checking calendar validity. -/
def mkValidDate (y m d : Nat) : Option Date :=
  if validDate y m d then some ⟨y, m, d⟩ else none

/-- Numeric value of a decimal digit character, none for a non-digit. -/
def digitVal (c : Char) : Option Nat :=
  if c.isDigit then some (c.toNat - 48) else none

/-- Modelled from the spec: the form layer (todos/forms.py, class TodoForm) is
not part of src, so the due-date string parser follows the words of the spec:
a string is accepted exactly when it parses as a valid calendar date in ISO
format YYYY-MM-DD. -/
def parseIsoDate (s : String) : Option Date :=
  match s.data with
  | [c1, c2, c3, c4, h1, c5, c6, h2, c7, c8] =>
    if h1 == '-' && h2 == '-' then
      match digitVal c1, digitVal c2, digitVal c3, digitVal c4,
            digitVal c5, digitVal c6, digitVal c7, digitVal c8 with
      | some a, some b, some c, some d, some e, some f, some g, some h =>
        mkValidDate (((a * 10 + b) * 10 + c) * 10 + d) (e * 10 + f) (g * 10 + h)
      | _, _, _, _, _, _, _, _ => none
    else none
  | _ => none

/-- The persisted Todo record (todos/models.py, class Todo). -/
structure Todo where
  id : Nat
  title : String
  description : Option String
  due_date : Option Date
  resolved : Bool
  created_at : Nat
  updated_at : Nat
deriving DecidableEq, Repr

/-- The storage layer: the todo table plus the auto-increment counter. -/
structure Store where
  todos : List Todo
  nextId : Nat
deriving DecidableEq, Repr

/-- Field-level validation error kinds (spec section 7). -/
inductive FieldError where
  | MissingField : FieldError
  | FieldTooLong : FieldError
  | InvalidDate : FieldError
deriving DecidableEq, Repr

/-- Raw form submission for create and edit: title text, optional description,
optional due-date string. -/
structure TodoInput where
  title : String
  description : Option String
  due_date : Option String
deriving DecidableEq, Repr

/-- Cleaned data produced by a successful validation. -/
structure ValidInput where
  title : String
  description : Option String
  due_date : Option Date
deriving DecidableEq, Repr

/-- Result of validating the title field. -/
inductive TitleResult where
  | ok (t : String) : TitleResult
  | error (e : FieldError) : TitleResult
deriving DecidableEq, Repr

/-- Result of validating the due-date field. -/
inductive DueResult where
  | ok (d : Option Date) : DueResult
  | error (e : FieldError) : DueResult
deriving DecidableEq, Repr

/-- Result of validating a whole submission. -/
inductive Validated where
  | ok (v : ValidInput) : Validated
  | error (errs : List (String × FieldError)) : Validated
deriving DecidableEq, Repr

/-- Strip leading and trailing whitespace characters from a character list. -/
def trimChars (cs : List Char) : List Char :=
  ((cs.dropWhile Char.isWhitespace).reverse.dropWhile Char.isWhitespace).reverse

/-- Strip leading and trailing whitespace from a string. -/
def strTrim (s : String) : String :=
  String.mk (trimChars s.data)

/-- Modelled from the spec: todos/forms.py (class TodoForm) is not part of src.
Title validation per spec section 4.1: trim surrounding whitespace, reject if
empty after trim (MissingField) or longer than 200 characters after trim
(FieldTooLong); the cleaned value is the trimmed title. -/
def validateTitle (title : String) : TitleResult :=
  let t := strTrim title
  if t.length = 0 then .error .MissingField
  else if t.length > 200 then .error .FieldTooLong
  else .ok t

/-- Modelled from the spec: todos/forms.py (class TodoForm) is not part of src.
Due-date validation per spec section 4.1: absent or empty input is accepted as
no date; otherwise the string must parse as a valid ISO calendar date, and any
other form is an InvalidDate error. -/
def validateDueDate : Option String → DueResult
  | none => .ok none
  | some str =>
    if str = ("") then .ok none
    else
      match parseIsoDate str with
      | some d => .ok (some d)
      | none => .error .InvalidDate

/-- Modelled from the spec: todos/forms.py (class TodoForm) is not part of src.
Whole-form validation: validate title and due date, collect field errors;
description is always accepted verbatim (spec section 4.1). -/
def validate (inp : TodoInput) : Validated :=
  match validateTitle inp.title, validateDueDate inp.due_date with
  | .ok t, .ok d => .ok ⟨t, inp.description, d⟩
  | .error e, .ok _ => .error [(("title"), e)]
  | .ok _, .error e => .error [(("due_date"), e)]
  | .error e1, .error e2 => .error [(("title"), e1), (("due_date"), e2)]

/-- Operation outcome: redirect on success, 404 on unknown id, or re-render
of the rejected input together with its field errors. -/
inductive Outcome where
  | redirect : Outcome
  | notFound : Outcome
  | rejected (inp : TodoInput) (errs : List (String × FieldError)) : Outcome
deriving DecidableEq, Repr

/-- Row lookup by primary key (get_object_or_404 before the 404 branch). -/
def getTodo (s : Store) (pk : Nat) : Option Todo :=
  s.todos.find? (fun t => t.id == pk)

/-- Chronological order on dates: lexicographic on year, month, day. -/
def dateLe (a b : Date) : Prop :=
  a.year < b.year ∨
    (a.year = b.year ∧
      (a.month < b.month ∨ (a.month = b.month ∧ a.day ≤ b.day)))

instance (a b : Date) : Decidable (dateLe a b) := by
  unfold dateLe; infer_instance

/-- Order on optional due dates with the absent date as minimum, matching
ascending NULLS FIRST ordering of the nullable due_date column. -/
def dueLe : Option Date → Option Date → Prop
  | none, _ => True
  | some _, none => False
  | some a, some b => dateLe a b

instance : ∀ o1 o2, Decidable (dueLe o1 o2) := fun o1 o2 =>
  match o1, o2 with
  | none, _ => isTrue True.intro
  | some _, none => isFalse (fun h => h)
  | some a, some b => (inferInstance : Decidable (dateLe a b))

/-- The default retrieval order of Todo records (models.py Meta ordering
by due_date). -/
def todoLe (t1 t2 : Todo) : Prop :=
  dueLe t1.due_date t2.due_date

instance : DecidableRel todoLe := fun t1 t2 =>
  (inferInstance : Decidable (dueLe t1.due_date t2.due_date))

/-- TodoListView: the full table in the default due-date order. -/
def listAll (s : Store) : List Todo :=
  List.insertionSort todoLe s.todos

/-- TodoCreateView POST: validate; on success persist a fresh record with a
new id, resolved false and both timestamps set to now, then redirect; on
failure re-render the rejected input with its errors and change nothing. -/
def createTodo (inp : TodoInput) (now : Nat) (s : Store) : Outcome × Store :=
  match validate inp with
  | .error errs => (.rejected inp errs, s)
  | .ok v =>
    (.redirect,
      { todos := s.todos ++
          [{ id := s.nextId, title := v.title, description := v.description,
             due_date := v.due_date, resolved := false,
             created_at := now, updated_at := now }],
        nextId := s.nextId + 1 })

/-- TodoUpdateView POST: 404 when the id is unknown; otherwise validate and on
success overwrite title, description and due_date of the target row and
refresh updated_at; on validation failure change nothing. -/
def editTodo (pk : Nat) (inp : TodoInput) (now : Nat) (s : Store) :
    Outcome × Store :=
  match getTodo s pk with
  | none => (.notFound, s)
  | some _ =>
    match validate inp with
    | .error errs => (.rejected inp errs, s)
    | .ok v =>
      (.redirect,
        { s with
          todos := s.todos.map (fun t =>
            if t.id == pk then
              { t with title := v.title, description := v.description,
                       due_date := v.due_date, updated_at := now }
            else t) })

/-- TodoDeleteView POST: 404 when the id is unknown; otherwise remove the row
and redirect. -/
def deleteTodo (pk : Nat) (s : Store) : Outcome × Store :=
  match getTodo s pk with
  | none => (.notFound, s)
  | some _ =>
    (.redirect, { s with todos := s.todos.filter (fun t => !(t.id == pk)) })

/-- TodoResolveView POST: 404 when the id is unknown; otherwise negate the
resolved flag, refresh updated_at on save, and redirect. -/
def toggleResolve (pk : Nat) (now : Nat) (s : Store) : Outcome × Store :=
  match getTodo s pk with
  | none => (.notFound, s)
  | some _ =>
    (.redirect,
      { s with
        todos := s.todos.map (fun t =>
          if t.id == pk then
            { t with resolved := !t.resolved, updated_at := now }
          else t) })

/-- TodoBulkDeleteView POST: when the selection is non-empty, delete every row
whose id is among the selected ids; always redirect. -/
def bulkDelete (ids : List Nat) (s : Store) : Outcome × Store :=
  if ids.isEmpty then (.redirect, s)
  else (.redirect, { s with todos := s.todos.filter (fun t => !(ids.contains t.id)) })

/-- Timestamp invariant of the table: created_at never exceeds updated_at. -/
def StoreInv (s : Store) : Prop :=
  ∀ t ∈ s.todos, t.created_at ≤ t.updated_at

instance (s : Store) : Decidable (StoreInv s) := by
  unfold StoreInv; infer_instance

/-- Freshness of the auto-increment counter: every stored id is below it. -/
def FreshIds (s : Store) : Prop :=
  ∀ t ∈ s.todos, t.id < s.nextId

instance (s : Store) : Decidable (FreshIds s) := by
  unfold FreshIds; infer_instance

lemma dueLe_total (o1 o2 : Option Date) : dueLe o1 o2 ∨ dueLe o2 o1 := by
  cases o1 with
  | none => exact Or.inl trivial
  | some a =>
    cases o2 with
    | none => exact Or.inr trivial
    | some b => simp only [dueLe, dateLe]; omega

lemma dueLe_trans {o1 o2 o3 : Option Date}
    (h1 : dueLe o1 o2) (h2 : dueLe o2 o3) : dueLe o1 o3 := by
  cases o1 with
  | none => exact trivial
  | some a =>
    cases o2 with
    | none => exact absurd h1 (fun h => h)
    | some b =>
      cases o3 with
      | none => exact absurd h2 (fun h => h)
      | some c => simp only [dueLe, dateLe] at *; omega

instance : IsTotal Todo todoLe :=
  ⟨fun t1 t2 => dueLe_total t1.due_date t2.due_date⟩

instance : IsTrans Todo todoLe :=
  ⟨fun _ _ _ h1 h2 => dueLe_trans h1 h2⟩

lemma find?_map_id_preserving (l : List Todo) (pk : Nat) (f : Todo → Todo)
    (hf : ∀ t, (f t).id = t.id) :
    (l.map f).find? (fun t => t.id == pk) =
      (l.find? (fun t => t.id == pk)).map f := by
  induction l with
  | nil => rfl
  | cons a l ih =>
    by_cases h : (a.id == pk) = true
    · have hfa : ((fun t => t.id == pk) (f a)) = true := by
        simp only [hf]; exact h
      rw [List.map_cons, List.find?_cons_of_pos (p := fun (t : Todo) => t.id == pk) _ hfa,
        List.find?_cons_of_pos (p := fun (t : Todo) => t.id == pk) _ h]
      rfl
    · have hfa : ¬ ((fun t => t.id == pk) (f a)) = true := by
        simp only [hf]; exact h
      rw [List.map_cons, List.find?_cons_of_neg (p := fun (t : Todo) => t.id == pk) _ hfa,
        List.find?_cons_of_neg (p := fun (t : Todo) => t.id == pk) _ h, ih]

lemma find?_filter_ne (l : List Todo) (pk : Nat) :
    (l.filter (fun t => !(t.id == pk))).find? (fun t => t.id == pk) = none := by
  induction l with
  | nil => rfl
  | cons a l ih =>
    by_cases h : (a.id == pk) = true
    · simp only [List.filter_cons, h, Bool.not_true, if_neg Bool.false_ne_true]
      exact ih
    · simp only [List.filter_cons]
      rw [if_pos (by simp [h]), List.find?_cons_of_neg (p := fun (t : Todo) => t.id == pk) _ h]
      exact ih

lemma orderedInsert_map {α : Type} (r : α → α → Prop) [DecidableRel r]
    (g : α → α) (hr : ∀ x y, r (g x) (g y) ↔ r x y) (a : α) (l : List α) :
    List.orderedInsert r (g a) (l.map g) = (List.orderedInsert r a l).map g := by
  induction l with
  | nil => rfl
  | cons b l ih =>
    by_cases h : r a b
    · rw [List.map_cons, List.orderedInsert, if_pos ((hr a b).mpr h),
        List.orderedInsert, if_pos h, List.map_cons, List.map_cons]
    · rw [List.map_cons, List.orderedInsert, if_neg (fun hc => h ((hr a b).mp hc)),
        List.orderedInsert, if_neg h, List.map_cons, ih]

lemma insertionSort_map {α : Type} (r : α → α → Prop) [DecidableRel r]
    (g : α → α) (hr : ∀ x y, r (g x) (g y) ↔ r x y) (l : List α) :
    List.insertionSort r (l.map g) = (List.insertionSort r l).map g := by
  induction l with
  | nil => rfl
  | cons a l ih =>
    rw [List.map_cons, List.insertionSort, List.insertionSort, ih,
      orderedInsert_map r g hr]

lemma getTodo_store_map (s : Store) (n pk : Nat) (f : Todo → Todo)
    (hf : ∀ u, (f u).id = u.id) :
    getTodo { todos := s.todos.map f, nextId := n } pk = (getTodo s pk).map f :=
  find?_map_id_preserving s.todos pk f hf

lemma toggleResolve_found (s : Store) (pk now : Nat) (u : Todo)
    (h : getTodo s pk = some u) :
    toggleResolve pk now s =
      (Outcome.redirect, { s with todos := s.todos.map (fun v =>
        if v.id == pk then { v with resolved := !v.resolved, updated_at := now }
        else v) }) := by
  simp only [toggleResolve, h]

/-- C1: for every Todo in storage, toggling resolve twice returns the resolved
flag to its original value, and with a strictly advancing clock each of the two
toggles refreshes updated_at so that updated_at strictly increases. -/
theorem C1_toggle_self_inverse (s : Store) (pk t1 t2 : Nat) (t : Todo)
    (ht : getTodo s pk = some t) (h1 : t.updated_at < t1) (h12 : t1 < t2) :
    (toggleResolve pk t1 s).1 = Outcome.redirect ∧
    ∃ t' t'',
      getTodo (toggleResolve pk t1 s).2 pk = some t' ∧
      (toggleResolve pk t2 (toggleResolve pk t1 s).2).1 = Outcome.redirect ∧
      getTodo (toggleResolve pk t2 (toggleResolve pk t1 s).2).2 pk = some t'' ∧
      t'.resolved = !t.resolved ∧
      t''.resolved = t.resolved ∧
      t'.updated_at = t1 ∧
      t''.updated_at = t2 ∧
      t.updated_at < t'.updated_at ∧
      t'.updated_at < t''.updated_at := by
  have hid : (t.id == pk) = true :=
    List.find?_some (p := fun (u : Todo) => u.id == pk) (l := s.todos) ht
  have e1 : toggleResolve pk t1 s =
      (Outcome.redirect, { s with todos := s.todos.map (fun u =>
        if u.id == pk then { u with resolved := !u.resolved, updated_at := t1 }
        else u) }) :=
    toggleResolve_found s pk t1 t ht
  have g1 : getTodo (toggleResolve pk t1 s).2 pk =
      some { t with resolved := !t.resolved, updated_at := t1 } := by
    rw [e1]
    rw [getTodo_store_map s s.nextId pk _ (fun u => by
      by_cases h : (u.id == pk) = true <;> simp [h])]
    rw [ht]
    have hideq : t.id = pk := by simpa using hid
    simp [hideq]
  have e2 : toggleResolve pk t2 (toggleResolve pk t1 s).2 =
      (Outcome.redirect, { (toggleResolve pk t1 s).2 with
        todos := (toggleResolve pk t1 s).2.todos.map (fun u =>
          if u.id == pk then { u with resolved := !u.resolved, updated_at := t2 }
          else u) }) :=
    toggleResolve_found (toggleResolve pk t1 s).2 pk t2 _ g1
  have g2 : getTodo (toggleResolve pk t2 (toggleResolve pk t1 s).2).2 pk =
      some { t with resolved := !(!t.resolved), updated_at := t2 } := by
    rw [e2]
    rw [getTodo_store_map ((toggleResolve pk t1 s).2)
      ((toggleResolve pk t1 s).2.nextId) pk _ (fun u => by
        by_cases h : (u.id == pk) = true <;> simp [h])]
    rw [g1]
    have hideq : t.id = pk := by simpa using hid
    simp [hideq]
  refine ⟨by rw [e1], { t with resolved := !t.resolved, updated_at := t1 },
    { t with resolved := !(!t.resolved), updated_at := t2 },
    g1, by rw [e2], g2, rfl, by simp, rfl, rfl, h1, lt_of_le_of_lt (le_refl t1) h12⟩

/-- Witness for C1 at a concrete one-row store. -/
theorem C1_toggle_self_inverse_witness :
    (toggleResolve 1 5 (⟨[⟨1, ("a"), none, none, false, 0, 0⟩], 2⟩ : Store)).1 =
      Outcome.redirect ∧
    ∃ t' t'',
      getTodo (toggleResolve 1 5 (⟨[⟨1, ("a"), none, none, false, 0, 0⟩], 2⟩ : Store)).2 1 = some t' ∧
      (toggleResolve 1 9 (toggleResolve 1 5 (⟨[⟨1, ("a"), none, none, false, 0, 0⟩], 2⟩ : Store)).2).1 =
        Outcome.redirect ∧
      getTodo (toggleResolve 1 9 (toggleResolve 1 5 (⟨[⟨1, ("a"), none, none, false, 0, 0⟩], 2⟩ : Store)).2).2 1 =
        some t'' ∧
      t'.resolved = !(⟨1, ("a"), none, none, false, 0, 0⟩ : Todo).resolved ∧
      t''.resolved = (⟨1, ("a"), none, none, false, 0, 0⟩ : Todo).resolved ∧
      t'.updated_at = 5 ∧
      t''.updated_at = 9 ∧
      (⟨1, ("a"), none, none, false, 0, 0⟩ : Todo).updated_at < t'.updated_at ∧
      t'.updated_at < t''.updated_at :=
  C1_toggle_self_inverse (⟨[⟨1, ("a"), none, none, false, 0, 0⟩], 2⟩ : Store) 1 5 9
    ⟨1, ("a"), none, none, false, 0, 0⟩ (by decide) (by decide) (by decide)

/-- C2: the list operation returns every stored Todo exactly once, sorted
ascending by due_date with absent due dates first, and repainting the resolved
flags in any way commutes with listing, so resolved never affects the order. -/
theorem C2_list_ordering (s : Store) (g : Todo → Bool) :
    List.Perm (listAll s) s.todos ∧
    List.Sorted todoLe (listAll s) ∧
    listAll { s with todos := s.todos.map (fun t => { t with resolved := g t }) } =
      (listAll s).map (fun t => { t with resolved := g t }) :=
  ⟨List.perm_insertionSort todoLe s.todos,
   List.sorted_insertionSort todoLe s.todos,
   insertionSort_map todoLe (fun t => { t with resolved := g t })
     (fun _ _ => Iff.rfl) s.todos⟩

lemma editTodo_miss (s : Store) (pk now : Nat) (inp : TodoInput)
    (h : getTodo s pk = none) :
    editTodo pk inp now s = (Outcome.notFound, s) := by
  simp only [editTodo, h]

lemma deleteTodo_miss (s : Store) (pk : Nat) (h : getTodo s pk = none) :
    deleteTodo pk s = (Outcome.notFound, s) := by
  simp only [deleteTodo, h]

lemma toggleResolve_miss (s : Store) (pk now : Nat) (h : getTodo s pk = none) :
    toggleResolve pk now s = (Outcome.notFound, s) := by
  simp only [toggleResolve, h]

lemma deleteTodo_found (s : Store) (pk : Nat) (u : Todo)
    (h : getTodo s pk = some u) :
    deleteTodo pk s =
      (Outcome.redirect,
        { s with todos := s.todos.filter (fun t => !(t.id == pk)) }) := by
  simp only [deleteTodo, h]

/-- C3: edit, delete and toggle-resolve on an id with no stored Todo all
answer NotFound and leave the store unchanged; after a successful delete the
id is gone and a second delete of the same id answers NotFound. -/
theorem C3_not_found (s : Store) (pk pk2 now : Nat) (inp : TodoInput) (t2 : Todo)
    (hmiss : getTodo s pk = none) (hhit : getTodo s pk2 = some t2) :
    editTodo pk inp now s = (Outcome.notFound, s) ∧
    deleteTodo pk s = (Outcome.notFound, s) ∧
    toggleResolve pk now s = (Outcome.notFound, s) ∧
    (deleteTodo pk2 s).1 = Outcome.redirect ∧
    getTodo (deleteTodo pk2 s).2 pk2 = none ∧
    deleteTodo pk2 (deleteTodo pk2 s).2 =
      (Outcome.notFound, (deleteTodo pk2 s).2) := by
  have ed : deleteTodo pk2 s =
      (Outcome.redirect,
        { s with todos := s.todos.filter (fun t => !(t.id == pk2)) }) :=
    deleteTodo_found s pk2 t2 hhit
  have gnone : getTodo (deleteTodo pk2 s).2 pk2 = none := by
    rw [ed]
    exact find?_filter_ne s.todos pk2
  exact ⟨editTodo_miss s pk now inp hmiss, deleteTodo_miss s pk hmiss,
    toggleResolve_miss s pk now hmiss, by rw [ed], gnone,
    deleteTodo_miss (deleteTodo pk2 s).2 pk2 gnone⟩

/-- Witness for C3: id 2 is absent, id 1 is present. -/
theorem C3_not_found_witness :
    editTodo 2 ⟨("x"), none, none⟩ 7 (⟨[⟨1, ("a"), none, none, false, 0, 0⟩], 2⟩ : Store) =
      (Outcome.notFound, (⟨[⟨1, ("a"), none, none, false, 0, 0⟩], 2⟩ : Store)) ∧
    deleteTodo 2 (⟨[⟨1, ("a"), none, none, false, 0, 0⟩], 2⟩ : Store) =
      (Outcome.notFound, (⟨[⟨1, ("a"), none, none, false, 0, 0⟩], 2⟩ : Store)) ∧
    toggleResolve 2 7 (⟨[⟨1, ("a"), none, none, false, 0, 0⟩], 2⟩ : Store) =
      (Outcome.notFound, (⟨[⟨1, ("a"), none, none, false, 0, 0⟩], 2⟩ : Store)) ∧
    (deleteTodo 1 (⟨[⟨1, ("a"), none, none, false, 0, 0⟩], 2⟩ : Store)).1 =
      Outcome.redirect ∧
    getTodo (deleteTodo 1 (⟨[⟨1, ("a"), none, none, false, 0, 0⟩], 2⟩ : Store)).2 1 = none ∧
    deleteTodo 1 (deleteTodo 1 (⟨[⟨1, ("a"), none, none, false, 0, 0⟩], 2⟩ : Store)).2 =
      (Outcome.notFound,
        (deleteTodo 1 (⟨[⟨1, ("a"), none, none, false, 0, 0⟩], 2⟩ : Store)).2) :=
  C3_not_found (⟨[⟨1, ("a"), none, none, false, 0, 0⟩], 2⟩ : Store) 2 1 7
    ⟨("x"), none, none⟩ ⟨1, ("a"), none, none, false, 0, 0⟩ (by decide) (by decide)

lemma validate_title_error (inp : TodoInput) (e : FieldError)
    (h : validateTitle inp.title = .error e) :
    ∃ errs, validate inp = .error errs ∧ ((("title"), e)) ∈ errs := by
  cases hd : validateDueDate inp.due_date with
  | ok d =>
    exact ⟨[(("title"), e)], by simp only [validate, h, hd], by simp⟩
  | error e2 =>
    exact ⟨[(("title"), e), (("due_date"), e2)],
      by simp only [validate, h, hd], by simp⟩

lemma createTodo_rejected (inp : TodoInput) (now : Nat) (s : Store)
    (errs : List (String × FieldError)) (h : validate inp = .error errs) :
    createTodo inp now s = (Outcome.rejected inp errs, s) := by
  simp only [createTodo, h]

lemma editTodo_rejected (s : Store) (pk now : Nat) (u : Todo) (inp : TodoInput)
    (errs : List (String × FieldError)) (hu : getTodo s pk = some u)
    (h : validate inp = .error errs) :
    editTodo pk inp now s = (Outcome.rejected inp errs, s) := by
  simp only [editTodo, hu, h]

/-- C4: a create or edit submission whose title is empty or whitespace-only
is rejected with a MissingField error on the title and the store is left
unchanged. -/
theorem C4_empty_title_rejected (inp : TodoInput) (now : Nat) (s : Store)
    (pk : Nat) (t : Todo) (htitle : strTrim inp.title = (""))
    (hhit : getTodo s pk = some t) :
    (∃ errs, createTodo inp now s = (Outcome.rejected inp errs, s) ∧
      ((("title"), FieldError.MissingField)) ∈ errs) ∧
    (∃ errs, editTodo pk inp now s = (Outcome.rejected inp errs, s) ∧
      ((("title"), FieldError.MissingField)) ∈ errs) := by
  have hvt : validateTitle inp.title = .error .MissingField := by
    simp [validateTitle, htitle]
  obtain ⟨errs, hv, hm⟩ := validate_title_error inp .MissingField hvt
  exact ⟨⟨errs, createTodo_rejected inp now s errs hv, hm⟩,
    ⟨errs, editTodo_rejected s pk now t inp errs hhit hv, hm⟩⟩

/-- Witness for C4 with a whitespace-only title. -/
theorem C4_empty_title_rejected_witness :
    (∃ errs,
      createTodo ⟨("   "), none, none⟩ 7 (⟨[⟨1, ("a"), none, none, false, 0, 0⟩], 2⟩ : Store) =
        (Outcome.rejected ⟨("   "), none, none⟩ errs,
          (⟨[⟨1, ("a"), none, none, false, 0, 0⟩], 2⟩ : Store)) ∧
      ((("title"), FieldError.MissingField)) ∈ errs) ∧
    (∃ errs,
      editTodo 1 ⟨("   "), none, none⟩ 7 (⟨[⟨1, ("a"), none, none, false, 0, 0⟩], 2⟩ : Store) =
        (Outcome.rejected ⟨("   "), none, none⟩ errs,
          (⟨[⟨1, ("a"), none, none, false, 0, 0⟩], 2⟩ : Store)) ∧
      ((("title"), FieldError.MissingField)) ∈ errs) :=
  C4_empty_title_rejected ⟨("   "), none, none⟩ 7
    (⟨[⟨1, ("a"), none, none, false, 0, 0⟩], 2⟩ : Store) 1
    ⟨1, ("a"), none, none, false, 0, 0⟩ (by decide) (by decide)

/-- C5: after trimming, a title of exactly 200 characters passes title
validation and a title of 201 characters is rejected as FieldTooLong. -/
theorem C5_title_length_boundary (t200 t201 : String)
    (h200 : (strTrim t200).length = 200) (h201 : (strTrim t201).length = 201) :
    validateTitle t200 = TitleResult.ok (strTrim t200) ∧
    validateTitle t201 = TitleResult.error FieldError.FieldTooLong := by
  constructor
  · simp [validateTitle, h200]
  · simp [validateTitle, h201]

set_option maxRecDepth 40000 in
/-- Witness for C5 at concrete titles of 200 and 201 letters. -/
theorem C5_title_length_boundary_witness :
    validateTitle (String.mk (List.replicate 200 'a')) =
      TitleResult.ok (strTrim (String.mk (List.replicate 200 'a'))) ∧
    validateTitle (String.mk (List.replicate 201 'a')) =
      TitleResult.error FieldError.FieldTooLong :=
  C5_title_length_boundary (String.mk (List.replicate 200 'a'))
    (String.mk (List.replicate 201 'a')) (by decide) (by decide)

lemma mkValidDate_valid (y m dd : Nat) (d : Date)
    (h : mkValidDate y m dd = some d) :
    validDate d.year d.month d.day = true := by
  unfold mkValidDate at h
  split at h
  · cases h
    assumption
  · simp at h

lemma parseIsoDate_valid (s : String) (d : Date)
    (h : parseIsoDate s = some d) :
    validDate d.year d.month d.day = true := by
  unfold parseIsoDate at h
  split at h
  · split at h
    · split at h
      · exact mkValidDate_valid _ _ _ d h
      · simp at h
    · simp at h
  · simp at h

/-- C6: a due-date submission is accepted exactly when it is absent, empty, or
parses as a valid ISO calendar date; every other string is rejected with
InvalidDate, every accepted date is a real calendar date, and dates as far in
the past or future as the four-digit ISO form reaches are accepted. -/
theorem C6_due_date_validation (str bad : String) (d : Date)
    (hparse : parseIsoDate str = some d)
    (hbadE : bad ≠ ("")) (hbadP : parseIsoDate bad = none) :
    validateDueDate none = DueResult.ok none ∧
    validateDueDate (some ("")) = DueResult.ok none ∧
    validateDueDate (some str) = DueResult.ok (some d) ∧
    validDate d.year d.month d.day = true ∧
    validateDueDate (some bad) = DueResult.error FieldError.InvalidDate ∧
    validateDueDate (some ("0001-01-01")) = DueResult.ok (some ⟨1, 1, 1⟩) ∧
    validateDueDate (some ("9999-12-31")) = DueResult.ok (some ⟨9999, 12, 31⟩) ∧
    validateDueDate (some ("2025-02-30")) = DueResult.error FieldError.InvalidDate := by
  have hne : str ≠ ("") := by
    intro hcon
    rw [hcon] at hparse
    simp [parseIsoDate] at hparse
  refine ⟨rfl, by simp [validateDueDate], ?_, parseIsoDate_valid str d hparse,
    ?_, by decide, by decide, by decide⟩
  · simp only [validateDueDate, if_neg hne, hparse]
  · simp only [validateDueDate, if_neg hbadE, hbadP]

/-- Witness for C6 at a concrete parse success and a concrete parse failure. -/
theorem C6_due_date_validation_witness :
    validateDueDate none = DueResult.ok none ∧
    validateDueDate (some ("")) = DueResult.ok none ∧
    validateDueDate (some ("2025-12-25")) = DueResult.ok (some ⟨2025, 12, 25⟩) ∧
    validDate (2025 : Nat) 12 25 = true ∧
    validateDueDate (some ("invalid-date")) = DueResult.error FieldError.InvalidDate ∧
    validateDueDate (some ("0001-01-01")) = DueResult.ok (some ⟨1, 1, 1⟩) ∧
    validateDueDate (some ("9999-12-31")) = DueResult.ok (some ⟨9999, 12, 31⟩) ∧
    validateDueDate (some ("2025-02-30")) = DueResult.error FieldError.InvalidDate :=
  C6_due_date_validation ("2025-12-25") ("invalid-date") ⟨2025, 12, 25⟩
    (by decide) (by decide) (by decide)

lemma editTodo_found_ok (s : Store) (pk now : Nat) (u : Todo) (inp : TodoInput)
    (v : ValidInput) (h : getTodo s pk = some u) (hv : validate inp = .ok v) :
    editTodo pk inp now s =
      (Outcome.redirect, { s with todos := s.todos.map (fun t =>
        if t.id == pk then
          { t with title := v.title, description := v.description,
                   due_date := v.due_date, updated_at := now }
        else t) }) := by
  simp only [editTodo, h, hv]

/-- C7: a successful edit overwrites only title, description and due_date and
refreshes updated_at, while the resolved flag, created_at and id of the target
Todo are unchanged. -/
theorem C7_edit_frame (s : Store) (pk now : Nat) (t : Todo) (inp : TodoInput)
    (v : ValidInput) (ht : getTodo s pk = some t) (hv : validate inp = .ok v) :
    (editTodo pk inp now s).1 = Outcome.redirect ∧
    ∃ t', getTodo (editTodo pk inp now s).2 pk = some t' ∧
      t'.id = t.id ∧
      t'.resolved = t.resolved ∧
      t'.created_at = t.created_at ∧
      t'.title = v.title ∧
      t'.description = v.description ∧
      t'.due_date = v.due_date ∧
      t'.updated_at = now := by
  have hid : (t.id == pk) = true :=
    List.find?_some (p := fun (u : Todo) => u.id == pk) (l := s.todos) ht
  have e1 : editTodo pk inp now s =
      (Outcome.redirect, { s with todos := s.todos.map (fun u =>
        if u.id == pk then
          { u with title := v.title, description := v.description,
                   due_date := v.due_date, updated_at := now }
        else u) }) :=
    editTodo_found_ok s pk now t inp v ht hv
  have g1 : getTodo (editTodo pk inp now s).2 pk =
      some { t with title := v.title, description := v.description,
                    due_date := v.due_date, updated_at := now } := by
    rw [e1]
    rw [getTodo_store_map s s.nextId pk _ (fun u => by
      by_cases h : (u.id == pk) = true <;> simp [h])]
    rw [ht]
    have hideq : t.id = pk := by simpa using hid
    simp [hideq]
  exact ⟨by rw [e1],
    { t with title := v.title, description := v.description,
             due_date := v.due_date, updated_at := now },
    g1, rfl, rfl, rfl, rfl, rfl, rfl, rfl⟩

/-- Witness for C7: editing the single stored Todo with a valid submission. -/
theorem C7_edit_frame_witness :
    (editTodo 1 ⟨("new title"), some ("d"), some ("2030-01-02")⟩ 7
      (⟨[⟨1, ("a"), none, none, true, 0, 3⟩], 2⟩ : Store)).1 = Outcome.redirect ∧
    ∃ t', getTodo (editTodo 1 ⟨("new title"), some ("d"), some ("2030-01-02")⟩ 7
        (⟨[⟨1, ("a"), none, none, true, 0, 3⟩], 2⟩ : Store)).2 1 = some t' ∧
      t'.id = (⟨1, ("a"), none, none, true, 0, 3⟩ : Todo).id ∧
      t'.resolved = (⟨1, ("a"), none, none, true, 0, 3⟩ : Todo).resolved ∧
      t'.created_at = (⟨1, ("a"), none, none, true, 0, 3⟩ : Todo).created_at ∧
      t'.title = ("new title") ∧
      t'.description = some ("d") ∧
      t'.due_date = some ⟨2030, 1, 2⟩ ∧
      t'.updated_at = 7 :=
  C7_edit_frame (⟨[⟨1, ("a"), none, none, true, 0, 3⟩], 2⟩ : Store) 1 7
    ⟨1, ("a"), none, none, true, 0, 3⟩
    ⟨("new title"), some ("d"), some ("2030-01-02")⟩
    ⟨("new title"), some ("d"), some ⟨2030, 1, 2⟩⟩ (by decide) (by decide)

/-- C8: a create that passes validation appends exactly one new record with a
fresh id distinct from every stored id, resolved false and both timestamps set
to now, keeps counter freshness, and redirects; a create that fails validation
changes nothing and returns the rejected input with its field errors. -/
theorem C8_create (inp1 inp2 : TodoInput) (v : ValidInput)
    (errs : List (String × FieldError)) (now : Nat) (s : Store)
    (hok : validate inp1 = .ok v) (herr : validate inp2 = .error errs)
    (hfresh : FreshIds s) :
    createTodo inp1 now s =
      (Outcome.redirect,
        { todos := s.todos ++
            [{ id := s.nextId, title := v.title, description := v.description,
               due_date := v.due_date, resolved := false,
               created_at := now, updated_at := now }],
          nextId := s.nextId + 1 }) ∧
    (∀ t ∈ s.todos, t.id ≠ s.nextId) ∧
    FreshIds (createTodo inp1 now s).2 ∧
    createTodo inp2 now s = (Outcome.rejected inp2 errs, s) := by
  have e : createTodo inp1 now s =
      (Outcome.redirect,
        { todos := s.todos ++
            [{ id := s.nextId, title := v.title, description := v.description,
               due_date := v.due_date, resolved := false,
               created_at := now, updated_at := now }],
          nextId := s.nextId + 1 }) := by
    simp only [createTodo, hok]
  refine ⟨e, fun t htm => Nat.ne_of_lt (hfresh t htm), ?_,
    createTodo_rejected inp2 now s errs herr⟩
  rw [e]
  intro t htm
  rcases List.mem_append.mp htm with hmem | hmem
  · exact Nat.lt_succ_of_lt (hfresh t hmem)
  · rw [List.mem_singleton.mp hmem]
    exact Nat.lt_succ_self s.nextId

/-- Witness for C8: one valid and one invalid submission against a one-row
store with a fresh counter. -/
theorem C8_create_witness :
    createTodo ⟨("buy milk"), none, none⟩ 7
      (⟨[⟨1, ("a"), none, none, false, 0, 0⟩], 2⟩ : Store) =
      (Outcome.redirect,
        { todos := (⟨[⟨1, ("a"), none, none, false, 0, 0⟩], 2⟩ : Store).todos ++
            [{ id := 2, title := ("buy milk"), description := none,
               due_date := none, resolved := false,
               created_at := 7, updated_at := 7 }],
          nextId := 3 }) ∧
    (∀ t ∈ (⟨[⟨1, ("a"), none, none, false, 0, 0⟩], 2⟩ : Store).todos, t.id ≠ 2) ∧
    FreshIds (createTodo ⟨("buy milk"), none, none⟩ 7
      (⟨[⟨1, ("a"), none, none, false, 0, 0⟩], 2⟩ : Store)).2 ∧
    createTodo ⟨(""), none, none⟩ 7
      (⟨[⟨1, ("a"), none, none, false, 0, 0⟩], 2⟩ : Store) =
      (Outcome.rejected ⟨(""), none, none⟩ [(("title"), FieldError.MissingField)],
        (⟨[⟨1, ("a"), none, none, false, 0, 0⟩], 2⟩ : Store)) :=
  C8_create ⟨("buy milk"), none, none⟩ ⟨(""), none, none⟩
    ⟨("buy milk"), none, none⟩ [(("title"), FieldError.MissingField)] 7
    (⟨[⟨1, ("a"), none, none, false, 0, 0⟩], 2⟩ : Store)
    (by decide) (by decide) (by decide)

/-- C9: the invariant created_at less-or-equal updated_at holds after each of
the five operations whenever it held before and the clock is not behind any
stored updated_at; create stamps both timestamps equal to now, and edit and
toggle keep created_at while only moving updated_at forward. -/
theorem C9_timestamp_invariant (s : Store) (inp : TodoInput) (pk now : Nat)
    (ids : List Nat) (hInv : StoreInv s)
    (hnow : ∀ t ∈ s.todos, t.updated_at ≤ now) :
    StoreInv (createTodo inp now s).2 ∧
    StoreInv (editTodo pk inp now s).2 ∧
    StoreInv (deleteTodo pk s).2 ∧
    StoreInv (toggleResolve pk now s).2 ∧
    StoreInv (bulkDelete ids s).2 ∧
    (∀ t ∈ listAll s, t.created_at ≤ t.updated_at) ∧
    (∀ t ∈ (createTodo inp now s).2.todos,
      t ∈ s.todos ∨ (t.created_at = now ∧ t.updated_at = now)) ∧
    (∀ t2 ∈ (editTodo pk inp now s).2.todos, ∃ t1 ∈ s.todos,
      t2.created_at = t1.created_at ∧ t1.updated_at ≤ t2.updated_at) ∧
    (∀ t2 ∈ (toggleResolve pk now s).2.todos, ∃ t1 ∈ s.todos,
      t2.created_at = t1.created_at ∧ t1.updated_at ≤ t2.updated_at) := by
  have hcreate : ∀ t ∈ (createTodo inp now s).2.todos,
      t ∈ s.todos ∨ (t.created_at = now ∧ t.updated_at = now) := by
    cases hv : validate inp with
    | error errs =>
      rw [createTodo_rejected inp now s errs hv]
      exact fun t htm => Or.inl htm
    | ok v =>
      have e : createTodo inp now s =
          (Outcome.redirect,
            { todos := s.todos ++
                [{ id := s.nextId, title := v.title,
                   description := v.description, due_date := v.due_date,
                   resolved := false, created_at := now, updated_at := now }],
              nextId := s.nextId + 1 }) := by
        simp only [createTodo, hv]
      rw [e]
      intro t htm
      rcases List.mem_append.mp htm with hmem | hmem
      · exact Or.inl hmem
      · rw [List.mem_singleton.mp hmem]
        exact Or.inr ⟨rfl, rfl⟩
  have hedit : ∀ t2 ∈ (editTodo pk inp now s).2.todos, ∃ t1 ∈ s.todos,
      t2.created_at = t1.created_at ∧ t1.updated_at ≤ t2.updated_at := by
    cases hg : getTodo s pk with
    | none =>
      rw [editTodo_miss s pk now inp hg]
      exact fun t2 h2 => ⟨t2, h2, rfl, le_refl _⟩
    | some u =>
      cases hv : validate inp with
      | error errs =>
        rw [editTodo_rejected s pk now u inp errs hg hv]
        exact fun t2 h2 => ⟨t2, h2, rfl, le_refl _⟩
      | ok v =>
        rw [editTodo_found_ok s pk now u inp v hg hv]
        intro t2 h2
        obtain ⟨t1, h1, rfl⟩ := List.mem_map.mp h2
        by_cases hb : (t1.id == pk) = true
        · exact ⟨t1, h1, by simp [hb], by simpa [hb] using hnow t1 h1⟩
        · exact ⟨t1, h1, by simp [hb], by simp [hb]⟩
  have htoggle : ∀ t2 ∈ (toggleResolve pk now s).2.todos, ∃ t1 ∈ s.todos,
      t2.created_at = t1.created_at ∧ t1.updated_at ≤ t2.updated_at := by
    cases hg : getTodo s pk with
    | none =>
      rw [toggleResolve_miss s pk now hg]
      exact fun t2 h2 => ⟨t2, h2, rfl, le_refl _⟩
    | some u =>
      rw [toggleResolve_found s pk now u hg]
      intro t2 h2
      obtain ⟨t1, h1, rfl⟩ := List.mem_map.mp h2
      by_cases hb : (t1.id == pk) = true
      · exact ⟨t1, h1, by simp [hb], by simpa [hb] using hnow t1 h1⟩
      · exact ⟨t1, h1, by simp [hb], by simp [hb]⟩
  refine ⟨?_, ?_, ?_, ?_, ?_, ?_, hcreate, hedit, htoggle⟩
  · intro t htm
    rcases hcreate t htm with hmem | ⟨hc, hu⟩
    · exact hInv t hmem
    · rw [hc, hu]
  · intro t2 h2
    obtain ⟨t1, h1, hc, hu⟩ := hedit t2 h2
    rw [hc]
    exact le_trans (hInv t1 h1) hu
  · cases hg : getTodo s pk with
    | none =>
      rw [deleteTodo_miss s pk hg]
      exact hInv
    | some u =>
      rw [deleteTodo_found s pk u hg]
      intro t htm
      exact hInv t (List.mem_filter.mp htm).1
  · intro t2 h2
    obtain ⟨t1, h1, hc, hu⟩ := htoggle t2 h2
    rw [hc]
    exact le_trans (hInv t1 h1) hu
  · by_cases hids : ids.isEmpty = true
    · simp only [bulkDelete, if_pos hids]
      exact hInv
    · simp only [bulkDelete, if_neg hids]
      intro t htm
      exact hInv t (List.mem_filter.mp htm).1
  · intro t htm
    exact hInv t (((List.perm_insertionSort todoLe s.todos).mem_iff).mp htm)

/-- Witness for C9 at a one-row store with the clock ahead of all rows. -/
theorem C9_timestamp_invariant_witness :
    StoreInv (createTodo ⟨("t"), none, none⟩ 5
      (⟨[⟨1, ("a"), none, none, false, 0, 3⟩], 2⟩ : Store)).2 ∧
    StoreInv (editTodo 1 ⟨("t"), none, none⟩ 5
      (⟨[⟨1, ("a"), none, none, false, 0, 3⟩], 2⟩ : Store)).2 ∧
    StoreInv (deleteTodo 1 (⟨[⟨1, ("a"), none, none, false, 0, 3⟩], 2⟩ : Store)).2 ∧
    StoreInv (toggleResolve 1 5 (⟨[⟨1, ("a"), none, none, false, 0, 3⟩], 2⟩ : Store)).2 ∧
    StoreInv (bulkDelete [1] (⟨[⟨1, ("a"), none, none, false, 0, 3⟩], 2⟩ : Store)).2 ∧
    (∀ t ∈ listAll (⟨[⟨1, ("a"), none, none, false, 0, 3⟩], 2⟩ : Store),
      t.created_at ≤ t.updated_at) ∧
    (∀ t ∈ (createTodo ⟨("t"), none, none⟩ 5
        (⟨[⟨1, ("a"), none, none, false, 0, 3⟩], 2⟩ : Store)).2.todos,
      t ∈ (⟨[⟨1, ("a"), none, none, false, 0, 3⟩], 2⟩ : Store).todos ∨
        (t.created_at = 5 ∧ t.updated_at = 5)) ∧
    (∀ t2 ∈ (editTodo 1 ⟨("t"), none, none⟩ 5
        (⟨[⟨1, ("a"), none, none, false, 0, 3⟩], 2⟩ : Store)).2.todos,
      ∃ t1 ∈ (⟨[⟨1, ("a"), none, none, false, 0, 3⟩], 2⟩ : Store).todos,
        t2.created_at = t1.created_at ∧ t1.updated_at ≤ t2.updated_at) ∧
    (∀ t2 ∈ (toggleResolve 1 5
        (⟨[⟨1, ("a"), none, none, false, 0, 3⟩], 2⟩ : Store)).2.todos,
      ∃ t1 ∈ (⟨[⟨1, ("a"), none, none, false, 0, 3⟩], 2⟩ : Store).todos,
        t2.created_at = t1.created_at ∧ t1.updated_at ≤ t2.updated_at) :=
  C9_timestamp_invariant (⟨[⟨1, ("a"), none, none, false, 0, 3⟩], 2⟩ : Store)
    ⟨("t"), none, none⟩ 1 5 [1] (by decide) (by decide)

/-- C10: bulk delete removes exactly the stored Todos whose id is selected,
leaves every other row and the id counter unchanged, silently ignores selected
ids matching no row, does nothing on an empty selection, and always
redirects. -/
theorem C10_bulk_delete (ids : List Nat) (s : Store) :
    (bulkDelete ids s).1 = Outcome.redirect ∧
    (bulkDelete ids s).2.todos = s.todos.filter (fun t => !(ids.contains t.id)) ∧
    (bulkDelete ids s).2.nextId = s.nextId ∧
    (bulkDelete ([] : List Nat) s).2 = s ∧
    (∀ t ∈ s.todos, t.id ∉ ids → t ∈ (bulkDelete ids s).2.todos) ∧
    (∀ t ∈ (bulkDelete ids s).2.todos, t ∈ s.todos ∧ t.id ∉ ids) := by
  have hout : (bulkDelete ids s).1 = Outcome.redirect := by
    by_cases hids : ids.isEmpty = true
    · simp only [bulkDelete, if_pos hids]
    · simp only [bulkDelete, if_neg hids]
  have hfilter : (bulkDelete ids s).2.todos =
      s.todos.filter (fun t => !(ids.contains t.id)) := by
    cases ids with
    | nil =>
      simp only [bulkDelete, List.isEmpty_nil, if_pos]
      exact (List.filter_eq_self.mpr (fun a _ => by simp)).symm
    | cons a l =>
      simp only [bulkDelete, List.isEmpty_cons, if_neg Bool.false_ne_true]
  have hnext : (bulkDelete ids s).2.nextId = s.nextId := by
    by_cases hids : ids.isEmpty = true
    · simp only [bulkDelete, if_pos hids]
    · simp only [bulkDelete, if_neg hids]
  refine ⟨hout, hfilter, hnext, by simp only [bulkDelete, List.isEmpty_nil, if_pos],
    ?_, ?_⟩
  · intro t htm hnotin
    rw [hfilter]
    exact List.mem_filter.mpr ⟨htm, by simp [List.elem_iff, hnotin]⟩
  · intro t htm
    rw [hfilter] at htm
    obtain ⟨h1, h2⟩ := List.mem_filter.mp htm
    refine ⟨h1, ?_⟩
    intro hmem
    simp [List.elem_iff, hmem] at h2

/-- Witness for C10: selecting one present and one absent id from a
two-row store. -/
theorem C10_bulk_delete_witness :
    (bulkDelete [2, 9] (⟨[⟨1, ("a"), none, none, false, 0, 0⟩,
        ⟨2, ("b"), none, none, false, 0, 0⟩], 3⟩ : Store)).1 = Outcome.redirect ∧
    (bulkDelete [2, 9] (⟨[⟨1, ("a"), none, none, false, 0, 0⟩,
        ⟨2, ("b"), none, none, false, 0, 0⟩], 3⟩ : Store)).2.todos =
      (⟨[⟨1, ("a"), none, none, false, 0, 0⟩,
        ⟨2, ("b"), none, none, false, 0, 0⟩], 3⟩ : Store).todos.filter
          (fun t => !(List.contains [2, 9] t.id)) ∧
    (bulkDelete [2, 9] (⟨[⟨1, ("a"), none, none, false, 0, 0⟩,
        ⟨2, ("b"), none, none, false, 0, 0⟩], 3⟩ : Store)).2.nextId = 3 ∧
    (bulkDelete ([] : List Nat) (⟨[⟨1, ("a"), none, none, false, 0, 0⟩,
        ⟨2, ("b"), none, none, false, 0, 0⟩], 3⟩ : Store)).2 =
      (⟨[⟨1, ("a"), none, none, false, 0, 0⟩,
        ⟨2, ("b"), none, none, false, 0, 0⟩], 3⟩ : Store) ∧
    (∀ t ∈ (⟨[⟨1, ("a"), none, none, false, 0, 0⟩,
        ⟨2, ("b"), none, none, false, 0, 0⟩], 3⟩ : Store).todos,
      t.id ∉ ([2, 9] : List Nat) →
        t ∈ (bulkDelete [2, 9] (⟨[⟨1, ("a"), none, none, false, 0, 0⟩,
          ⟨2, ("b"), none, none, false, 0, 0⟩], 3⟩ : Store)).2.todos) ∧
    (∀ t ∈ (bulkDelete [2, 9] (⟨[⟨1, ("a"), none, none, false, 0, 0⟩,
        ⟨2, ("b"), none, none, false, 0, 0⟩], 3⟩ : Store)).2.todos,
      t ∈ (⟨[⟨1, ("a"), none, none, false, 0, 0⟩,
        ⟨2, ("b"), none, none, false, 0, 0⟩], 3⟩ : Store).todos ∧
        t.id ∉ ([2, 9] : List Nat)) :=
  C10_bulk_delete [2, 9] (⟨[⟨1, ("a"), none, none, false, 0, 0⟩,
    ⟨2, ("b"), none, none, false, 0, 0⟩], 3⟩ : Store)

/-- Witness for C2 at a concrete two-row store and a concrete repaint of the
resolved flags. -/
theorem C2_list_ordering_witness :
    List.Perm (listAll (⟨[⟨1, ("a"), none, some ⟨2030, 1, 2⟩, false, 0, 0⟩,
        ⟨2, ("b"), none, none, true, 0, 0⟩], 3⟩ : Store))
      (⟨[⟨1, ("a"), none, some ⟨2030, 1, 2⟩, false, 0, 0⟩,
        ⟨2, ("b"), none, none, true, 0, 0⟩], 3⟩ : Store).todos ∧
    List.Sorted todoLe (listAll (⟨[⟨1, ("a"), none, some ⟨2030, 1, 2⟩, false, 0, 0⟩,
        ⟨2, ("b"), none, none, true, 0, 0⟩], 3⟩ : Store)) ∧
    listAll { (⟨[⟨1, ("a"), none, some ⟨2030, 1, 2⟩, false, 0, 0⟩,
        ⟨2, ("b"), none, none, true, 0, 0⟩], 3⟩ : Store) with
        todos := (⟨[⟨1, ("a"), none, some ⟨2030, 1, 2⟩, false, 0, 0⟩,
          ⟨2, ("b"), none, none, true, 0, 0⟩], 3⟩ : Store).todos.map
            (fun t => { t with resolved := (fun _ => true) t }) } =
      (listAll (⟨[⟨1, ("a"), none, some ⟨2030, 1, 2⟩, false, 0, 0⟩,
        ⟨2, ("b"), none, none, true, 0, 0⟩], 3⟩ : Store)).map
          (fun t => { t with resolved := (fun _ => true) t }) :=
  C2_list_ordering (⟨[⟨1, ("a"), none, some ⟨2030, 1, 2⟩, false, 0, 0⟩,
    ⟨2, ("b"), none, none, true, 0, 0⟩], 3⟩ : Store) (fun _ => true)
